import Mathlib

/-!
Verification of `app.py`, a Streamlit chat application with in-memory
authentication, per-user transcripts, and a one-node LangGraph workflow
that forwards each conversation turn to an external completion API.

The Python dictionaries (`st.session_state.users`,
`st.session_state.chat_histories`, `st.secrets`) are modelled as
association lists with Python-dict semantics: lookup finds the first
(unique) matching key, assignment updates in place or appends.
-/

set_option autoImplicit false

namespace Languubot

universe u

/-- Python dict lookup: `d[k]` / `k in d`, as an association-list search. -/
def dictGet {α : Type u} (k : String) : List (String × α) → Option α
  | [] => none
  | (k', v) :: rest => if k' = k then some v else dictGet k rest

/-- Python dict assignment `d[k] = v`: replace the binding in place if the
key is present, otherwise append the new binding at the end. -/
def dictInsert {α : Type u} (k : String) (v : α) : List (String × α) → List (String × α)
  | [] => [(k, v)]
  | (k', v') :: rest => if k' = k then (k, v) :: rest else (k', v') :: dictInsert k v rest

/-- Role tag of a chat message, `msg["role"]` in `app.py` (lines 177, 214):
only `"user"` and `"assistant"` are ever stored. -/
inductive Role : Type
  | user
  | assistant
deriving DecidableEq

/-- One entry of a chat history (lines 177-181 and 214-218):
`{"role": ..., "content": ..., "timestamp": ...}`. Timestamps are opaque
strings (`datetime.now().isoformat()`). -/
structure Message : Type where
  role : Role
  content : String
  timestamp : String
deriving DecidableEq

/-- One entry of `st.session_state.users` (lines 80-83):
`{'password': ..., 'created_at': ...}`. -/
structure UserRec : Type where
  password : String
  created_at : String
deriving DecidableEq

/-- The Streamlit session state of `app.py` (lines 13-22):
`logged_in`, `username`, the credential store `users`, and the
transcript store `chat_histories`. -/
structure SessionState : Type where
  logged_in : Bool
  username : Option String
  users : List (String × UserRec)
  chat_histories : List (String × List Message)
deriving DecidableEq

/-- The fresh session state produced by lines 13-22 on a new session. -/
def initSessionState : SessionState :=
  { logged_in := false, username := none, users := [], chat_histories := [] }

/-- `st.secrets`: the configuration/secrets mapping read by `get_llm`. -/
structure Config : Type where
  secrets : List (String × String)
deriving DecidableEq

/-- `signup(username, password)` (lines 72-85). `now` stands for
`datetime.now().isoformat()`. Returns the updated session state together
with the `(success, message)` pair the Python function returns. -/
def signup (st : SessionState) (username password now : String) :
    SessionState × Bool × String :=
  if (dictGet username st.users).isSome then
    (st, false, "Username already exists")
  else if password.length < 6 then
    (st, false, "Password must be at least 6 characters")
  else if username = "" ∨ password = "" then
    (st, false, "Username and password cannot be empty")
  else
    ({ st with
        users := dictInsert username { password := password, created_at := now } st.users,
        chat_histories := dictInsert username [] st.chat_histories },
      true, "Account created successfully")

/-- `login(username, password)` (lines 87-95). -/
def login (st : SessionState) (username password : String) :
    SessionState × Bool × String :=
  match dictGet username st.users with
  | none => (st, false, "Username not found")
  | some rec =>
      if rec.password ≠ password then
        (st, false, "Incorrect password")
      else
        ({ st with logged_in := true, username := some username },
          true, "Logged in successfully")

/-- `logout()` (lines 97-99). -/
def logout (st : SessionState) : SessionState :=
  { st with logged_in := false, username := none }

/-- The "Clear Chat History" button handler (lines 154-157):
`st.session_state.chat_histories[st.session_state.username] = []`.
The argument `u` is the session's current username (the button is only
rendered while `logged_in` is true). -/
def clearHistory (st : SessionState) (u : String) : SessionState :=
  { st with chat_histories := dictInsert u [] st.chat_histories }

/-- A LangChain chat message: `HumanMessage` or `AIMessage` (the two
constructors produced by lines 195-200, and the `AIMessage` returned by
`llm.invoke`). -/
inductive ChatMsg : Type
  | human (content : String)
  | ai (content : String)
deriving DecidableEq

/-- `.content` of a LangChain message. -/
def msgContent : ChatMsg → String
  | .human c => c
  | .ai c => c

/-- Lines 195-200: rebuild the LangChain message list from the stored
history, mapping role `"user"` to `HumanMessage` and `"assistant"` to
`AIMessage`, preserving order. -/
def historyToMessages : List Message → List ChatMsg
  | [] => []
  | m :: rest =>
      match m.role with
      | .user => ChatMsg.human m.content :: historyToMessages rest
      | .assistant => ChatMsg.ai m.content :: historyToMessages rest

/-- The external completion model `llm.invoke`: given the message list it
either returns a response message or raises (modelled as `.error` carrying
`str(e)`). -/
abbrev LLMFn : Type := List ChatMsg → Except String ChatMsg

/-- Trace of external completion calls: the argument list of each
`llm.invoke` performed, in order. -/
abbrev Trace : Type := List (List ChatMsg)

/-- The single call site of the external model. Every consultation of the
completion API goes through this function, which records the request in
the trace. -/
def invokeLLM (llm : LLMFn) (tr : Trace) (messages : List ChatMsg) :
    Except String ChatMsg × Trace :=
  (llm messages, tr ++ [messages])

/-- `chatbot_node` (lines 43-46): invoke the model on the state's messages
and return `{"messages": [response]}`. -/
def chatbot_node (llm : LLMFn) (tr : Trace) (messages : List ChatMsg) :
    Except String (List ChatMsg) × Trace :=
  match invokeLLM llm tr messages with
  | (.error e, tr1) => (.error e, tr1)
  | (.ok response, tr1) => (.ok [response], tr1)

/-- The state of the `MemorySaver` checkpointer created in `create_graph`
(line 66): the latest checkpointed value of the `messages` channel for
each thread id. `create_graph` is `@st.cache_resource`, so this store
lives for the whole process, across reruns; `thread_id` is the username
(line 203). -/
abbrev CkptStore : Type := List (String × List ChatMsg)

/-- `app.invoke` on the graph compiled with `checkpointer=memory`
(lines 66-67, 204-207): `ck` is the thread's restored checkpointed
`messages` value. The input is applied to it through the channel's
`operator.add` reducer, the single `chatbot` node runs on the combined
state `ck ++ input`, and its output is applied through the same reducer,
giving the final state `(ck ++ input) ++ new` that `invoke` returns (and
that is checkpointed). -/
def graphInvoke (llm : LLMFn) (tr : Trace) (ck input : List ChatMsg) :
    Except String (List ChatMsg) × Trace :=
  match chatbot_node llm tr (ck ++ input) with
  | (.error e, tr1) => (.error e, tr1)
  | (.ok new, tr1) => (.ok ((ck ++ input) ++ new), tr1)

/-- Result of `get_llm`: either a configured client (carrying the API key)
or a stopped script (`st.stop()` after the error banner). -/
inductive LLMInit : Type
  | ok (apiKey : String)
  | stopped (errorMessage : String)
deriving DecidableEq

/-- `get_llm` (lines 29-40): read `st.secrets["OPENAI_API_KEY"]`; on any
failure (the key being absent) show the error banner and `st.stop()`,
which stops the current script run. -/
def get_llm (cfg : Config) : LLMInit :=
  match dictGet "OPENAI_API_KEY" cfg.secrets with
  | some apiKey => .ok apiKey
  | none => .stopped "API key not found in secrets. Please add OPENAI_API_KEY to your .streamlit/secrets.toml file"

/-- What one conversation turn displays to the user: the assistant reply,
the caught-exception banner of lines 220-222, or a stopped script run
(`st.stop()` from `get_llm`). -/
inductive TurnOutcome : Type
  | ok (response : String)
  | errorShown (message : String)
  | stopped (message : String)
deriving DecidableEq

/-- Lines 163-165: `if username not in st.session_state.chat_histories:
st.session_state.chat_histories[username] = []`. -/
def ensureHistory (st : SessionState) (username : String) : SessionState :=
  match dictGet username st.chat_histories with
  | some _ => st
  | none => { st with chat_histories := dictInsert username [] st.chat_histories }

/-- `st.session_state.chat_histories[username].append(m)`
(lines 177-181 and 214-218). -/
def appendMessage (st : SessionState) (username : String) (m : Message) : SessionState :=
  { st with
      chat_histories :=
        dictInsert username
          ((dictGet username st.chat_histories).getD [] ++ [m]) st.chat_histories }

/-- One conversation turn (lines 163-222) for the session's current user
`username` (line 161): ensure the history key exists, append the submitted
prompt as a user message, build the client (`create_graph` → `get_llm`:
a missing API key stops the script here, before any graph or checkpoint
exists), rebuild the message list from the entire stored history
(lines 195-200), invoke the graph once under `thread_id = username` —
which restores the thread's checkpoint and prepends it to the input via
`operator.add` — extract `result["messages"][-1].content` (an empty
result would raise IndexError, caught by the same handler), and append it
as an assistant message. On a completed `invoke` the final combined state
is checkpointed; when the node fails, the checkpoint written for the
input step — LangGraph saves it before running the node, which is what
allows resuming a failed thread — holds `ck ++ input`. Any exception from
the external call is caught and shown as `"Error: " ++ str(e)`.
`ts1`/`ts2` are the two `datetime.now()` stamps. Returns the new
checkpoint store, the new session state, the displayed outcome, and the
trace of external completion calls. -/
def handleTurn (cfg : Config) (llm : LLMFn) (ckpt : CkptStore) (st : SessionState)
    (username prompt ts1 ts2 : String) : CkptStore × SessionState × TurnOutcome × Trace :=
  let st0 := ensureHistory st username
  let st1 := appendMessage st0 username { role := .user, content := prompt, timestamp := ts1 }
  match get_llm cfg with
  | .stopped msg => (ckpt, st1, .stopped msg, [])
  | .ok _ =>
      let request := historyToMessages ((dictGet username st1.chat_histories).getD [])
      let ck := (dictGet username ckpt).getD []
      match graphInvoke llm [] ck request with
      | (.error e, tr) =>
          (dictInsert username (ck ++ request) ckpt, st1, .errorShown ("Error: " ++ e), tr)
      | (.ok result, tr) =>
          match result.getLast? with
          | none => (dictInsert username result ckpt, st1,
              .errorShown "Error: list index out of range", tr)
          | some last =>
              (dictInsert username result ckpt,
                appendMessage st1 username
                  { role := .assistant, content := msgContent last, timestamp := ts2 },
                .ok (msgContent last), tr)

/-- A message displayed by the signup form: `st.success` or `st.error`. -/
inductive UIMessage : Type
  | success (text : String)
  | error (text : String)
deriving DecidableEq

/-- The "Sign Up" button handler (lines 134-144): empty-field check first,
then the password/confirmation comparison, then `signup`. The `Bool`
component records whether `signup` was invoked. -/
def signupTab (st : SessionState) (username password passwordConfirm now : String) :
    SessionState × UIMessage × Bool :=
  if username = "" ∨ password = "" then
    (st, .error "Please fill in all fields", false)
  else if password ≠ passwordConfirm then
    (st, .error "Passwords don't match", false)
  else
    match signup st username password now with
    | (st1, true, msg) => (st1, .success msg, true)
    | (st1, false, msg) => (st1, .error msg, true)

/-- Whether a fresh process run halts at startup or keeps running. -/
inductive StartupOutcome : Type
  | running
  | halted (message : String)
deriving DecidableEq

/-- Startup of a fresh process: the module-level code (lines 10-22) sets
the page config and initialises the session-state keys, then `main()`
runs (line 244); with an anonymous fresh session it renders the
login/signup sidebar and the welcome page (lines 224-241). No code on
this path calls `get_llm` or reads `cfg.secrets` — `get_llm` is reached
only from `create_graph` at line 192, inside a conversation turn — so
startup completes regardless of the configuration. -/
def appStartup (_cfg : Config) : StartupOutcome × SessionState :=
  (.running, initSessionState)

/-! ### Association-list (Python dict) lemmas -/

theorem dictGet_insert_self {α : Type u} (k : String) (v : α) (l : List (String × α)) :
    dictGet k (dictInsert k v l) = some v := by
  induction l with
  | nil => simp [dictGet, dictInsert]
  | cons hd tl ih =>
      obtain ⟨k', v'⟩ := hd
      by_cases h : k' = k
      · simp [dictGet, dictInsert, h]
      · simp [dictGet, dictInsert, h, ih]

theorem dictGet_insert_ne {α : Type u} (k q : String) (v : α) (l : List (String × α))
    (h : q ≠ k) : dictGet q (dictInsert k v l) = dictGet q l := by
  induction l with
  | nil => simp [dictGet, dictInsert, Ne.symm h]
  | cons hd tl ih =>
      obtain ⟨k', v'⟩ := hd
      by_cases hk : k' = k
      · subst hk
        simp [dictGet, dictInsert, Ne.symm h, h]
      · simp [dictGet, dictInsert, hk, ih]

theorem dictInsert_insert {α : Type u} (k : String) (v w : α) (l : List (String × α)) :
    dictInsert k v (dictInsert k w l) = dictInsert k v l := by
  induction l with
  | nil => simp [dictInsert]
  | cons hd tl ih =>
      obtain ⟨k', v'⟩ := hd
      by_cases h : k' = k
      · simp [dictInsert, h]
      · simp [dictInsert, h, ih]

/-! ### Turn-handler characterisation lemmas -/

/-- Ensuring the history key and then appending a message equals a single
dict update with the message appended to the (possibly missing, then
empty) previous history. -/
theorem appendMessage_ensureHistory (st : SessionState) (u : String) (m : Message) :
    appendMessage (ensureHistory st u) u m =
      { st with
          chat_histories :=
            dictInsert u ((dictGet u st.chat_histories).getD [] ++ [m])
              st.chat_histories } := by
  unfold ensureHistory
  rcases h : dictGet u st.chat_histories with _ | l
  · simp [appendMessage, h, dictGet_insert_self, dictInsert_insert]
  · simp [appendMessage, h]

/-- The successful conversation turn, in closed form: the transcript gains
the user message and then the assistant reply, exactly one external call
is made — carrying the thread's checkpointed state followed by the entire
updated transcript — and the combined final state is checkpointed. -/
theorem handleTurn_ok_eq (cfg : Config) (llm : LLMFn) (ckpt : CkptStore) (st : SessionState)
    (username prompt ts1 ts2 apiKey : String) (ck : List ChatMsg)
    (oldHist : List Message) (resp : ChatMsg)
    (hkey : dictGet "OPENAI_API_KEY" cfg.secrets = some apiKey)
    (hck : (dictGet username ckpt).getD [] = ck)
    (hold : (dictGet username st.chat_histories).getD [] = oldHist)
    (hllm : llm (ck ++ historyToMessages
        (oldHist ++ [{ role := .user, content := prompt, timestamp := ts1 }])) = .ok resp) :
    handleTurn cfg llm ckpt st username prompt ts1 ts2 =
      (dictInsert username
          ((ck ++ historyToMessages
            (oldHist ++ [{ role := .user, content := prompt, timestamp := ts1 }])) ++ [resp])
          ckpt,
        { st with
          chat_histories :=
            dictInsert username
              (oldHist ++ [{ role := .user, content := prompt, timestamp := ts1 },
                { role := .assistant, content := msgContent resp, timestamp := ts2 }])
              st.chat_histories },
        .ok (msgContent resp),
        [ck ++ historyToMessages
          (oldHist ++ [{ role := .user, content := prompt, timestamp := ts1 }])]) := by
  simp only [handleTurn]
  rw [appendMessage_ensureHistory, hold]
  simp only [get_llm, hkey]
  simp only [graphInvoke, chatbot_node, invokeLLM, dictGet_insert_self, Option.getD_some, hck, hllm]
  simp [appendMessage, dictGet_insert_self, dictInsert_insert, List.getLast?_concat]

/-- The failing conversation turn, in closed form: the user message is
appended, the single external call is made with the thread's checkpointed
state followed by the entire updated transcript, its failure is shown as
an error banner, the input-step checkpoint is retained, and nothing else
changes. -/
theorem handleTurn_error_eq (cfg : Config) (llm : LLMFn) (ckpt : CkptStore) (st : SessionState)
    (username prompt ts1 ts2 apiKey e : String) (ck : List ChatMsg) (oldHist : List Message)
    (hkey : dictGet "OPENAI_API_KEY" cfg.secrets = some apiKey)
    (hck : (dictGet username ckpt).getD [] = ck)
    (hold : (dictGet username st.chat_histories).getD [] = oldHist)
    (hllm : llm (ck ++ historyToMessages
        (oldHist ++ [{ role := .user, content := prompt, timestamp := ts1 }])) = .error e) :
    handleTurn cfg llm ckpt st username prompt ts1 ts2 =
      (dictInsert username
          (ck ++ historyToMessages
            (oldHist ++ [{ role := .user, content := prompt, timestamp := ts1 }]))
          ckpt,
        { st with
          chat_histories :=
            dictInsert username
              (oldHist ++ [{ role := .user, content := prompt, timestamp := ts1 }])
              st.chat_histories },
        .errorShown ("Error: " ++ e),
        [ck ++ historyToMessages
          (oldHist ++ [{ role := .user, content := prompt, timestamp := ts1 }])]) := by
  simp only [handleTurn]
  rw [appendMessage_ensureHistory, hold]
  simp only [get_llm, hkey]
  simp [graphInvoke, chatbot_node, invokeLLM, dictGet_insert_self, hck, hllm]

/-- The conversation turn under a missing API key, in closed form: the
user message is appended, then `get_llm` stops the script run; no
external call happens and the checkpoint store is untouched. -/
theorem handleTurn_stopped_eq (cfg : Config) (llm : LLMFn) (ckpt : CkptStore) (st : SessionState)
    (username prompt ts1 ts2 : String) (oldHist : List Message)
    (hkey : dictGet "OPENAI_API_KEY" cfg.secrets = none)
    (hold : (dictGet username st.chat_histories).getD [] = oldHist) :
    handleTurn cfg llm ckpt st username prompt ts1 ts2 =
      (ckpt,
        { st with
          chat_histories :=
            dictInsert username
              (oldHist ++ [{ role := .user, content := prompt, timestamp := ts1 }])
              st.chat_histories },
        .stopped "API key not found in secrets. Please add OPENAI_API_KEY to your .streamlit/secrets.toml file",
        []) := by
  simp only [handleTurn]
  rw [appendMessage_ensureHistory, hold]
  simp [get_llm, hkey]

/-! ### Concrete sample data for closed instantiations -/

/-- A one-user credential store. -/
def sampleUsers : List (String × UserRec) :=
  [("alice", { password := "secret1", created_at := "t0" })]

/-- A configuration carrying the API key. -/
def sampleCfg : Config := { secrets := [("OPENAI_API_KEY", "sk-test")] }

/-- An authenticated session for `"alice"` with an empty transcript. -/
def sampleLoggedIn : SessionState :=
  { logged_in := true, username := some "alice", users := sampleUsers,
    chat_histories := [("alice", [])] }

/-- An anonymous session whose credential store already holds `"alice"`. -/
def sampleAnon : SessionState :=
  { logged_in := false, username := none, users := sampleUsers, chat_histories := [] }

/-- An authenticated two-user session with non-trivial transcripts. -/
def twoUserState : SessionState :=
  { logged_in := true, username := some "alice",
    users := [("alice", { password := "secret1", created_at := "t0" }),
      ("bob", { password := "hunter22", created_at := "t1" })],
    chat_histories :=
      [("alice", [{ role := .user, content := "hi", timestamp := "t2" }]),
        ("bob", [{ role := .user, content := "yo", timestamp := "t3" }])] }

/-- A completion model returning the constant reply `"r1"`. -/
def constLlm : LLMFn := fun _ => Except.ok (ChatMsg.ai "r1")

/-- The checkpoint store as it stands after the first turn of
`sampleLoggedIn` under `constLlm` (shown by the counterexample below). -/
def turn1Ckpt : CkptStore := [("alice", [ChatMsg.human "hi", ChatMsg.ai "r1"])]

/-- The session state as it stands after that same first turn. -/
def turn1State : SessionState :=
  { sampleLoggedIn with
    chat_histories :=
      [("alice", [{ role := .user, content := "hi", timestamp := "t1" },
        { role := .assistant, content := "r1", timestamp := "t2" }])] }

/-! ### Claims -/

/-- Counterexample to claim C1: the first turn of `"alice"` produces the
checkpoint `turn1Ckpt` and state `turn1State`; on the second turn the
single external call carries the checkpointed thread state prepended to
the rebuilt transcript — the two prior messages appear twice — so the
request is not the entire transcript as the claim states. -/
theorem C1_counterexample_duplicated_request :
    handleTurn sampleCfg constLlm [] sampleLoggedIn "alice" "hi" "t1" "t2" =
      (turn1Ckpt, turn1State, .ok "r1", [[ChatMsg.human "hi"]])
    ∧ (handleTurn sampleCfg constLlm turn1Ckpt turn1State "alice" "again" "t3" "t4").2.2.2 =
        [[ChatMsg.human "hi", ChatMsg.ai "r1",
          ChatMsg.human "hi", ChatMsg.ai "r1", ChatMsg.human "again"]]
    ∧ (handleTurn sampleCfg constLlm turn1Ckpt turn1State "alice" "again" "t3" "t4").2.2.2 ≠
        [historyToMessages ((dictGet "alice" turn1State.chat_histories).getD [] ++
          [{ role := .user, content := "again", timestamp := "t3" }])] := by
  refine ⟨by decide, by decide, by decide⟩

/-- Claim C1 as amended: for every logged-in user and submitted input
string, one conversation turn appends the input as a user-role message to
that user's transcript, makes exactly one external call — whose request
is the thread's checkpointed message state from previous turns in the
same process, followed by the entire transcript (every message, in order,
with its role tag), hence exactly the transcript alone only when that
checkpoint is empty, as on the first turn — and appends the returned
response content as an assistant-role message at the end of the
transcript. -/
theorem C1_turn_appends_and_calls_once_with_checkpoint
    (cfg : Config) (llm : LLMFn) (ckpt : CkptStore) (st : SessionState)
    (username prompt ts1 ts2 apiKey : String) (ck : List ChatMsg)
    (oldHist : List Message) (resp : ChatMsg)
    (_hauth : st.logged_in = true) (_huser : st.username = some username)
    (hkey : dictGet "OPENAI_API_KEY" cfg.secrets = some apiKey)
    (hck : (dictGet username ckpt).getD [] = ck)
    (hold : (dictGet username st.chat_histories).getD [] = oldHist)
    (hllm : llm (ck ++ historyToMessages
        (oldHist ++ [{ role := .user, content := prompt, timestamp := ts1 }])) = .ok resp) :
    handleTurn cfg llm ckpt st username prompt ts1 ts2 =
      (dictInsert username
          ((ck ++ historyToMessages
            (oldHist ++ [{ role := .user, content := prompt, timestamp := ts1 }])) ++ [resp])
          ckpt,
        { st with
          chat_histories :=
            dictInsert username
              (oldHist ++ [{ role := .user, content := prompt, timestamp := ts1 },
                { role := .assistant, content := msgContent resp, timestamp := ts2 }])
              st.chat_histories },
        .ok (msgContent resp),
        [ck ++ historyToMessages
          (oldHist ++ [{ role := .user, content := prompt, timestamp := ts1 }])]) :=
  handleTurn_ok_eq cfg llm ckpt st username prompt ts1 ts2 apiKey ck oldHist resp
    hkey hck hold hllm

/-- Closed instantiation of the amended C1: the second turn of `"alice"`,
whose checkpoint already holds the first exchange. -/
theorem C1_turn_appends_and_calls_once_with_checkpoint_witness :
    handleTurn sampleCfg constLlm turn1Ckpt turn1State "alice" "again" "t3" "t4" =
      (dictInsert "alice"
          (([ChatMsg.human "hi", ChatMsg.ai "r1"] ++ historyToMessages
            ([{ role := .user, content := "hi", timestamp := "t1" },
              { role := .assistant, content := "r1", timestamp := "t2" }] ++
              [{ role := .user, content := "again", timestamp := "t3" }])) ++ [ChatMsg.ai "r1"])
          turn1Ckpt,
        { turn1State with
          chat_histories :=
            dictInsert "alice"
              ([{ role := .user, content := "hi", timestamp := "t1" },
                { role := .assistant, content := "r1", timestamp := "t2" }] ++
                [{ role := .user, content := "again", timestamp := "t3" },
                  { role := .assistant, content := msgContent (ChatMsg.ai "r1"), timestamp := "t4" }])
              turn1State.chat_histories },
        .ok (msgContent (ChatMsg.ai "r1")),
        [[ChatMsg.human "hi", ChatMsg.ai "r1"] ++ historyToMessages
          ([{ role := .user, content := "hi", timestamp := "t1" },
            { role := .assistant, content := "r1", timestamp := "t2" }] ++
            [{ role := .user, content := "again", timestamp := "t3" }])]) :=
  C1_turn_appends_and_calls_once_with_checkpoint sampleCfg constLlm turn1Ckpt turn1State
    "alice" "again" "t3" "t4" "sk-test" [ChatMsg.human "hi", ChatMsg.ai "r1"]
    [{ role := .user, content := "hi", timestamp := "t1" },
      { role := .assistant, content := "r1", timestamp := "t2" }]
    (ChatMsg.ai "r1") rfl rfl rfl rfl rfl rfl

/-- Claim C2: when the external completion call fails, the error is caught
and shown as a human-readable message, the just-submitted user message
remains recorded, no assistant message is appended, and no other part of
the transcript store, credential store or session state changes. -/
theorem C2_external_error_keeps_user_message
    (cfg : Config) (llm : LLMFn) (ckpt : CkptStore) (st : SessionState)
    (username prompt ts1 ts2 apiKey e : String) (ck : List ChatMsg) (oldHist : List Message)
    (_hauth : st.logged_in = true) (_huser : st.username = some username)
    (hkey : dictGet "OPENAI_API_KEY" cfg.secrets = some apiKey)
    (hck : (dictGet username ckpt).getD [] = ck)
    (hold : (dictGet username st.chat_histories).getD [] = oldHist)
    (hllm : llm (ck ++ historyToMessages
        (oldHist ++ [{ role := .user, content := prompt, timestamp := ts1 }])) = .error e) :
    handleTurn cfg llm ckpt st username prompt ts1 ts2 =
      (dictInsert username
          (ck ++ historyToMessages
            (oldHist ++ [{ role := .user, content := prompt, timestamp := ts1 }]))
          ckpt,
        { st with
          chat_histories :=
            dictInsert username
              (oldHist ++ [{ role := .user, content := prompt, timestamp := ts1 }])
              st.chat_histories },
        .errorShown ("Error: " ++ e),
        [ck ++ historyToMessages
          (oldHist ++ [{ role := .user, content := prompt, timestamp := ts1 }])])
    ∧ ∀ other, other ≠ username →
        dictGet other (handleTurn cfg llm ckpt st username prompt ts1 ts2).2.1.chat_histories =
          dictGet other st.chat_histories := by
  have h := handleTurn_error_eq cfg llm ckpt st username prompt ts1 ts2 apiKey e ck oldHist
    hkey hck hold hllm
  refine ⟨h, fun other hne => ?_⟩
  rw [h]
  exact dictGet_insert_ne username other _ st.chat_histories hne

/-- Closed instantiation of C2: a failing completion call on the second
turn of `"alice"`, with a non-empty checkpoint. -/
theorem C2_external_error_keeps_user_message_witness :
    handleTurn sampleCfg (fun _ => Except.error "boom") turn1Ckpt turn1State
        "alice" "again" "t3" "t4" =
      (dictInsert "alice"
          ([ChatMsg.human "hi", ChatMsg.ai "r1"] ++ historyToMessages
            ([{ role := .user, content := "hi", timestamp := "t1" },
              { role := .assistant, content := "r1", timestamp := "t2" }] ++
              [{ role := .user, content := "again", timestamp := "t3" }]))
          turn1Ckpt,
        { turn1State with
          chat_histories :=
            dictInsert "alice"
              ([{ role := .user, content := "hi", timestamp := "t1" },
                { role := .assistant, content := "r1", timestamp := "t2" }] ++
                [{ role := .user, content := "again", timestamp := "t3" }])
              turn1State.chat_histories },
        .errorShown ("Error: " ++ "boom"),
        [[ChatMsg.human "hi", ChatMsg.ai "r1"] ++ historyToMessages
          ([{ role := .user, content := "hi", timestamp := "t1" },
            { role := .assistant, content := "r1", timestamp := "t2" }] ++
            [{ role := .user, content := "again", timestamp := "t3" }])]) :=
  (C2_external_error_keeps_user_message sampleCfg (fun _ => Except.error "boom")
    turn1Ckpt turn1State "alice" "again" "t3" "t4" "sk-test" "boom"
    [ChatMsg.human "hi", ChatMsg.ai "r1"]
    [{ role := .user, content := "hi", timestamp := "t1" },
      { role := .assistant, content := "r1", timestamp := "t2" }]
    rfl rfl rfl rfl rfl rfl).1

/-- Claim C3: login succeeds iff the username is a key of the credential
store and the stored password is exactly equal to the supplied password;
an absent username fails with the username-not-found condition, a present
username with a different password fails with the incorrect-password
condition, and success sets `logged_in` and binds the current user. -/
theorem C3_login_iff_exact_match (st : SessionState) (username password : String) :
    ((login st username password).2.1 = true ↔
      ∃ r, dictGet username st.users = some r ∧ r.password = password)
    ∧ (dictGet username st.users = none →
        login st username password = (st, false, "Username not found"))
    ∧ (∀ r, dictGet username st.users = some r → r.password ≠ password →
        login st username password = (st, false, "Incorrect password"))
    ∧ (∀ r, dictGet username st.users = some r → r.password = password →
        login st username password =
          ({ st with logged_in := true, username := some username },
            true, "Logged in successfully")) := by
  rcases h : dictGet username st.users with _ | r
  · simp [login, h]
  · by_cases hp : r.password = password
    · simp [login, h, hp]
    · simp [login, h, hp]

/-- Closed instantiation of C3: the stored password logs `"alice"` in. -/
theorem C3_login_iff_exact_match_witness :
    (login sampleAnon "alice" "secret1").2.1 = true :=
  (C3_login_iff_exact_match sampleAnon "alice" "secret1").1.mpr
    ⟨{ password := "secret1", created_at := "t0" }, rfl, rfl⟩

/-- Claim C4: a signup with a fresh non-empty username and a password of
length at least 6 succeeds, creates the credential entry, creates an empty
transcript for that username, and leaves `logged_in` and the bound current
user unchanged. -/
theorem C4_signup_success_creates_user_and_empty_transcript
    (st : SessionState) (username password now : String)
    (hfree : dictGet username st.users = none)
    (huser : username ≠ "")
    (hlen : 6 ≤ password.length) :
    signup st username password now =
      ({ st with
          users := dictInsert username { password := password, created_at := now } st.users,
          chat_histories := dictInsert username [] st.chat_histories },
        true, "Account created successfully")
    ∧ dictGet username (signup st username password now).1.chat_histories = some []
    ∧ (signup st username password now).1.logged_in = st.logged_in
    ∧ (signup st username password now).1.username = st.username := by
  have hshort : ¬ password.length < 6 := by omega
  have hempty : ¬ (username = "" ∨ password = "") := by
    rintro (h | h)
    · exact huser h
    · rw [h] at hlen
      exact absurd hlen (by decide)
  have heq : signup st username password now =
      ({ st with
          users := dictInsert username { password := password, created_at := now } st.users,
          chat_histories := dictInsert username [] st.chat_histories },
        true, "Account created successfully") := by
    simp [signup, hfree, hshort, hempty]
  refine ⟨heq, ?_, ?_, ?_⟩ <;> simp [heq, dictGet_insert_self]

/-- Closed instantiation of C4: `"bob"` signs up on a fresh session. -/
theorem C4_signup_success_creates_user_and_empty_transcript_witness :
    dictGet "bob" (signup initSessionState "bob" "abcdef" "t1").1.chat_histories = some [] :=
  (C4_signup_success_creates_user_and_empty_transcript initSessionState "bob" "abcdef" "t1"
    rfl (by decide) (by decide)).2.1

/-- Counterexample to claim C5: with a configuration that lacks
`OPENAI_API_KEY` entirely, a fresh process run still completes startup as
running — the startup path never reads the key, so the application does
not halt at startup. -/
theorem C5_counterexample_startup_runs_without_key :
    dictGet "OPENAI_API_KEY" (Config.mk []).secrets = none
    ∧ (appStartup (Config.mk [])).1 = StartupOutcome.running :=
  ⟨rfl, rfl⟩

/-- Claim C5 as amended: an absent API key does not halt startup — startup
completes as running — and the failure is deferred to the first
conversation turn that needs the completion client: there `get_llm` shows
the user-visible fatal error message and stops the script run, with no
external call made and the just-appended user message retained. -/
theorem C5_missing_key_deferred_to_first_turn
    (cfg : Config) (llm : LLMFn) (ckpt : CkptStore) (st : SessionState)
    (username prompt ts1 ts2 : String) (oldHist : List Message)
    (_hauth : st.logged_in = true) (_huser : st.username = some username)
    (hkey : dictGet "OPENAI_API_KEY" cfg.secrets = none)
    (hold : (dictGet username st.chat_histories).getD [] = oldHist) :
    (appStartup cfg).1 = StartupOutcome.running
    ∧ handleTurn cfg llm ckpt st username prompt ts1 ts2 =
        (ckpt,
          { st with
            chat_histories :=
              dictInsert username
                (oldHist ++ [{ role := .user, content := prompt, timestamp := ts1 }])
                st.chat_histories },
          .stopped "API key not found in secrets. Please add OPENAI_API_KEY to your .streamlit/secrets.toml file",
          []) :=
  ⟨rfl, handleTurn_stopped_eq cfg llm ckpt st username prompt ts1 ts2 oldHist hkey hold⟩

/-- Closed instantiation of the amended C5: a turn of `"alice"` with an
empty secrets mapping. -/
theorem C5_missing_key_deferred_to_first_turn_witness :
    handleTurn (Config.mk []) (fun _ => Except.ok (ChatMsg.ai "x")) [] sampleLoggedIn
        "alice" "hello" "t1" "t2" =
      ([],
        { sampleLoggedIn with
          chat_histories :=
            dictInsert "alice"
              (([] : List Message) ++ [{ role := .user, content := "hello", timestamp := "t1" }])
              sampleLoggedIn.chat_histories },
        .stopped "API key not found in secrets. Please add OPENAI_API_KEY to your .streamlit/secrets.toml file",
        []) :=
  (C5_missing_key_deferred_to_first_turn (Config.mk []) (fun _ => Except.ok (ChatMsg.ai "x"))
    [] sampleLoggedIn "alice" "hello" "t1" "t2" [] rfl rfl rfl rfl).2

/-- Claim C6: logout transitions the session to anonymous and clears the
bound current user while leaving the transcript store untouched, and a
subsequent successful re-login as the same user (with the stored password)
finds that user's transcript exactly as accumulated before logout. -/
theorem C6_logout_then_relogin_preserves_transcript
    (st : SessionState) (username : String) (r : UserRec)
    (_hauth : st.logged_in = true) (_huser : st.username = some username)
    (hstored : dictGet username st.users = some r) :
    (logout st).logged_in = false
    ∧ (logout st).username = none
    ∧ (logout st).chat_histories = st.chat_histories
    ∧ login (logout st) username r.password =
        ({ st with logged_in := true, username := some username },
          true, "Logged in successfully")
    ∧ (login (logout st) username r.password).1.chat_histories = st.chat_histories := by
  have hlogin : login (logout st) username r.password =
      ({ st with logged_in := true, username := some username },
        true, "Logged in successfully") := by
    simp [login, logout, hstored]
  exact ⟨rfl, rfl, rfl, hlogin, by rw [hlogin]⟩

/-- Closed instantiation of C6: `"alice"` re-logs in after logout and
keeps her transcript. -/
theorem C6_logout_then_relogin_preserves_transcript_witness :
    (login (logout twoUserState) "alice" "secret1").1.chat_histories =
      twoUserState.chat_histories :=
  (C6_logout_then_relogin_preserves_transcript twoUserState "alice"
    { password := "secret1", created_at := "t0" } rfl rfl rfl).2.2.2.2

/-- Claim C7: clearing the history of the currently authenticated user `a`
empties `a`'s transcript and leaves every other user's transcript, the
credential store, and the authentication state exactly unchanged. -/
theorem C7_clear_history_isolated (st : SessionState) (a b : String)
    (_hauth : st.logged_in = true) (_huser : st.username = some a) (hne : a ≠ b) :
    dictGet a (clearHistory st a).chat_histories = some []
    ∧ dictGet b (clearHistory st a).chat_histories = dictGet b st.chat_histories
    ∧ (clearHistory st a).users = st.users
    ∧ (clearHistory st a).logged_in = st.logged_in
    ∧ (clearHistory st a).username = st.username := by
  refine ⟨?_, ?_, rfl, rfl, rfl⟩
  · exact dictGet_insert_self a [] st.chat_histories
  · exact dictGet_insert_ne a b [] st.chat_histories (Ne.symm hne)

/-- Closed instantiation of C7: clearing `"alice"` leaves `"bob"` intact. -/
theorem C7_clear_history_isolated_witness :
    dictGet "bob" (clearHistory twoUserState "alice").chat_histories =
      dictGet "bob" twoUserState.chat_histories :=
  (C7_clear_history_isolated twoUserState "alice" "bob" rfl rfl (by decide)).2.1

/-- Claim C8: signup with a username already present in the credential
store fails with the already-exists condition for every password, and the
whole session state (both stores included) is unchanged. -/
theorem C8_duplicate_signup_rejected (st : SessionState)
    (username password now : String) (r : UserRec)
    (hdup : dictGet username st.users = some r) :
    signup st username password now = (st, false, "Username already exists") := by
  simp [signup, hdup]

/-- Closed instantiation of C8: re-registering `"alice"` with a short
password still yields the already-exists failure and no state change. -/
theorem C8_duplicate_signup_rejected_witness :
    signup sampleLoggedIn "alice" "x" "t9" = (sampleLoggedIn, false, "Username already exists") :=
  C8_duplicate_signup_rejected sampleLoggedIn "alice" "x" "t9"
    { password := "secret1", created_at := "t0" } rfl

/-- Claim C9: whenever signup or login returns failure, the entire session
state — credential store, transcript store, `logged_in` flag and bound
current username — is exactly as before the call. -/
theorem C9_failed_auth_ops_are_noops (st : SessionState) (username password now : String) :
    ((signup st username password now).2.1 = false → (signup st username password now).1 = st)
    ∧ ((login st username password).2.1 = false → (login st username password).1 = st) := by
  constructor
  · simp only [signup]
    split_ifs <;> simp
  · rcases h : dictGet username st.users with _ | r
    · simp [login, h]
    · by_cases hp : r.password = password
      · simp [login, h, hp]
      · simp [login, h, hp]

/-- Closed instantiation of C9: a duplicate-username signup leaves the
session state untouched. -/
theorem C9_failed_auth_ops_are_noops_witness :
    (signup sampleLoggedIn "alice" "short" "t9").1 = sampleLoggedIn :=
  (C9_failed_auth_ops_are_noops sampleLoggedIn "alice" "short" "t9").1 rfl

/-- Counterexample to claim C10: a submission with an empty username and
mismatching passwords shows the fill-in-all-fields error, not the
passwords-do-not-match error, because the empty-field check runs first. -/
theorem C10_counterexample_empty_field_precedence :
    ("a" : String) ≠ "b"
    ∧ signupTab initSessionState "" "a" "b" "t0" =
        (initSessionState, UIMessage.error "Please fill in all fields", false)
    ∧ UIMessage.error "Please fill in all fields" ≠ UIMessage.error "Passwords don't match" := by
  refine ⟨by decide, rfl, by decide⟩

/-- Claim C10 as amended: for every submission whose username and password
fields are non-empty, if the password differs from the confirmation the
passwords-do-not-match error is shown, the signup operation is never
invoked, and the session state (both stores included) is unchanged. -/
theorem C10_password_mismatch_blocks_signup
    (st : SessionState) (username password passwordConfirm now : String)
    (hu : username ≠ "") (hp : password ≠ "") (hne : password ≠ passwordConfirm) :
    signupTab st username password passwordConfirm now =
      (st, UIMessage.error "Passwords don't match", false) := by
  simp [signupTab, hu, hp, hne]

/-- Closed instantiation of the amended C10: `"carol"` mistypes the
confirmation field. -/
theorem C10_password_mismatch_blocks_signup_witness :
    signupTab initSessionState "carol" "abcdef" "abcdeg" "t0" =
      (initSessionState, UIMessage.error "Passwords don't match", false) :=
  C10_password_mismatch_blocks_signup initSessionState "carol" "abcdef" "abcdeg" "t0"
    (by decide) (by decide) (by decide)

end Languubot
